import Mathlib

/-
Verification of the PrimeLabs clinic/lab management application's business
logic: test categorization, doctor referral commission calculation,
referral report aggregation, the authorization/approval state machine,
registration compensation, write-retry behaviour, and form validators.

The definitions below are shallow embeddings of the Python source:
  - src/app/data_models.py  (commission rates, default table, data models)
  - src/app/app.py          (categorizer, referral commission calculation,
                             referral report, validators, write retries)
  - src/app/user_authentication.py (approval status resolution, registration)

Python `int(...)` applied to a nonnegative quantity truncates toward zero;
we model Python numbers with exact arithmetic (ℤ for ints, ℚ for the float
rate values) and `int()` as truncation toward zero.
-/

namespace PrimeLabs

/-- Python `int(q)` on a rational: truncation toward zero. -/
def pyInt (q : ℚ) : ℤ := if 0 ≤ q then ⌊q⌋ else ⌈q⌉

theorem pyInt_of_nonneg {q : ℚ} (h : 0 ≤ q) : pyInt q = ⌊q⌋ := if_pos h

/-- data_models.CommissionType -/
inductive CommissionType where
  | percentage
  | fixed
  deriving DecidableEq, Repr

/-- data_models.TestCategory -/
inductive TestCategory where
  | USG_750
  | USG_1200
  | XRAY_350
  | XRAY_450
  | XRAY_650
  | ECG
  | CT_SCAN
  | PATH
  deriving DecidableEq, Repr

/-- data_models.TestCommissionRate (category, commission_type, rate). -/
structure TestCommissionRate where
  category : TestCategory
  commission_type : CommissionType
  rate : ℚ
  deriving DecidableEq, Repr

/-- data_models.TestCommissionRate.calculate_commission -/
def TestCommissionRate.calculate_commission (cr : TestCommissionRate) (test_price : ℤ) : ℤ :=
  if cr.commission_type = CommissionType.percentage then
    pyInt ((test_price : ℚ) * cr.rate / 100)
  else
    pyInt cr.rate

/-- data_models.DEFAULT_COMMISSION_RATES: the hardcoded default rate table.
All eight categories are keys of the Python dict, so the `.get` fallback
`(PERCENTAGE, 0)` in `get_commission_for_category` is unreachable. -/
def DEFAULT_COMMISSION_RATES : TestCategory → CommissionType × ℚ
  | .USG_750 => (.fixed, 250)
  | .USG_1200 => (.fixed, 300)
  | .XRAY_350 => (.fixed, 100)
  | .XRAY_450 => (.fixed, 100)
  | .XRAY_650 => (.fixed, 150)
  | .ECG => (.fixed, 100)
  | .CT_SCAN => (.percentage, 40)
  | .PATH => (.percentage, 50)

/-- The fallback branch of RegisteredDoctor.get_commission_for_category:
commission computed from the default table entry for the category. -/
def defaultCommission (category : TestCategory) (test_price : ℤ) : ℤ × CommissionType × ℚ :=
  let d := DEFAULT_COMMISSION_RATES category
  let commission :=
    if d.1 = CommissionType.percentage then pyInt ((test_price : ℚ) * d.2 / 100) else pyInt d.2
  (commission, d.1, d.2)

/-- data_models.RegisteredDoctor.get_commission_for_category: first rate entry
whose category matches wins; if none matches, fall back to the default table. -/
def get_commission_for_category :
    List TestCommissionRate → TestCategory → ℤ → ℤ × CommissionType × ℚ
  | [], category, test_price => defaultCommission category test_price
  | cr :: rest, category, test_price =>
    if cr.category = category then
      (cr.calculate_commission test_price, cr.commission_type, cr.rate)
    else
      get_commission_for_category rest category test_price

/-- app.py MedicalRecordForm.render builds `commission_lookup` as a Python dict
keyed by category, so a later duplicate entry overwrites an earlier one:
the effective entry is the LAST list entry with the category. -/
def lastRate : List TestCommissionRate → TestCategory → Option (CommissionType × ℚ)
  | [], _ => none
  | cr :: rest, category =>
    match lastRate rest category with
    | some r => some r
    | none => if cr.category = category then some (cr.commission_type, cr.rate) else none

/-- app.py MedicalRecordForm.render, lines 744-753: rate selection for a test
category (doctor's lookup entry if present, else the default table). -/
def appCommissionRate (rates : List TestCommissionRate) (category : TestCategory) :
    CommissionType × ℚ :=
  match lastRate rates category with
  | some r => r
  | none => DEFAULT_COMMISSION_RATES category

/-- Result of the per-test commission computation in
app.py MedicalRecordForm.render, lines 736-763. -/
structure TestCommissionOutcome where
  discount : ℤ
  original_commission : ℤ
  commission_amount : ℤ
  deriving DecidableEq, Repr

/-- app.py MedicalRecordForm.render, lines 736-763: per-test referral
commission.  `original_price` is the standard catalog price, `paid_price`
the amount actually collected. -/
def referralTestCommission (comm_type : CommissionType) (comm_rate : ℚ)
    (original_price paid_price : ℤ) : TestCommissionOutcome :=
  let discount := original_price - paid_price
  let original_commission :=
    if comm_type = CommissionType.percentage then
      pyInt ((original_price : ℚ) * comm_rate / 100)
    else
      pyInt comm_rate
  { discount := discount
    original_commission := original_commission
    commission_amount := max 0 (original_commission - discount) }

/-- C1: for a test with standard price s ≥ 0, paid price 0 ≤ p ≤ s and
nonnegative rate r, the discount is s − p; the original commission is
⌊s·r/100⌋ for a percentage rate and ⌊r⌋ for a fixed rate; the final
commission is max(0, original − discount) and is always nonnegative. -/
theorem referral_commission_formula (ct : CommissionType) (r : ℚ) (s p : ℤ)
    (hs : 0 ≤ s) (hp0 : 0 ≤ p) (hps : p ≤ s) (hr : 0 ≤ r) :
    (referralTestCommission ct r s p).discount = s - p ∧
    (referralTestCommission ct r s p).original_commission =
      (if ct = CommissionType.percentage then ⌊(s : ℚ) * r / 100⌋ else ⌊r⌋) ∧
    (referralTestCommission ct r s p).commission_amount =
      max 0 ((referralTestCommission ct r s p).original_commission - (s - p)) ∧
    0 ≤ (referralTestCommission ct r s p).commission_amount := by
  have hsq : (0 : ℚ) ≤ (s : ℚ) := by exact_mod_cast hs
  have hq : (0 : ℚ) ≤ (s : ℚ) * r / 100 := by positivity
  refine ⟨rfl, ?_, rfl, le_max_left _ _⟩
  cases ct with
  | percentage =>
    simp [referralTestCommission, pyInt_of_nonneg hq]
  | fixed =>
    simp [referralTestCommission, pyInt_of_nonneg hr]

/-- Witness for C1: the spec's discount-deduction scenario, a USG test with
standard price 750 paid 600 under a fixed rate of 250 rupees, yields final
commission max(0, 250 − 150) = 100, which is nonnegative. -/
theorem referral_commission_formula_witness :
    0 ≤ (referralTestCommission CommissionType.fixed 250 750 600).commission_amount ∧
    (referralTestCommission CommissionType.fixed 250 750 600).commission_amount = 100 := by
  refine ⟨(referral_commission_formula CommissionType.fixed 250 750 600
    (by norm_num) (by norm_num) (by norm_num) (by norm_num)).2.2.2, ?_⟩
  norm_num [referralTestCommission, pyInt]
  decide

theorem get_commission_eq_default {rates : List TestCommissionRate}
    {category : TestCategory} (test_price : ℤ)
    (h : ∀ cr ∈ rates, cr.category ≠ category) :
    get_commission_for_category rates category test_price =
      defaultCommission category test_price := by
  induction rates with
  | nil => rfl
  | cons cr rest ih =>
    have hcr : cr.category ≠ category := h cr (List.mem_cons_self cr rest)
    simp only [get_commission_for_category, if_neg hcr]
    exact ih fun x hx => h x (List.mem_cons_of_mem cr hx)

theorem lastRate_eq_none {rates : List TestCommissionRate} {category : TestCategory}
    (h : ∀ cr ∈ rates, cr.category ≠ category) :
    lastRate rates category = none := by
  induction rates with
  | nil => rfl
  | cons cr rest ih =>
    have hcr : cr.category ≠ category := h cr (List.mem_cons_self cr rest)
    simp only [lastRate, ih fun x hx => h x (List.mem_cons_of_mem cr hx), if_neg hcr]

/-- C3: if a doctor's rate table has no entry for a category, both the
data-model lookup (`get_commission_for_category`) and the record-form lookup
(`appCommissionRate`) fall back to the hardcoded default table; in particular
removing (filtering out) a doctor's custom rate for a category reproduces the
default-table result exactly, and the default table maps USG_750 to fixed 250,
CT_SCAN to percentage 40 and PATH to percentage 50. -/
theorem commission_default_fallback (rates : List TestCommissionRate)
    (category : TestCategory) (test_price : ℤ)
    (h : ∀ cr ∈ rates, cr.category ≠ category) :
    get_commission_for_category rates category test_price =
      defaultCommission category test_price ∧
    (∀ rs : List TestCommissionRate,
      get_commission_for_category (rs.filter (fun cr => cr.category != category))
        category test_price = defaultCommission category test_price) ∧
    appCommissionRate rates category = DEFAULT_COMMISSION_RATES category ∧
    DEFAULT_COMMISSION_RATES TestCategory.USG_750 = (CommissionType.fixed, 250) ∧
    DEFAULT_COMMISSION_RATES TestCategory.CT_SCAN = (CommissionType.percentage, 40) ∧
    DEFAULT_COMMISSION_RATES TestCategory.PATH = (CommissionType.percentage, 50) := by
  refine ⟨get_commission_eq_default test_price h, ?_, ?_, rfl, rfl, rfl⟩
  · intro rs
    refine get_commission_eq_default test_price ?_
    intro cr hcr
    have := (List.mem_filter.mp hcr).2
    exact bne_iff_ne.mp this
  · unfold appCommissionRate
    rw [lastRate_eq_none h]

/-- Witness for C3: a doctor whose only custom rate is for XRAY_350 has no
entry for USG_750, so a 750-rupee ultrasound falls back to the default
fixed 250 commission. -/
theorem commission_default_fallback_witness :
    (∀ cr ∈ [TestCommissionRate.mk TestCategory.XRAY_350 CommissionType.fixed 100],
      cr.category ≠ TestCategory.USG_750) ∧
    get_commission_for_category
      [TestCommissionRate.mk TestCategory.XRAY_350 CommissionType.fixed 100]
      TestCategory.USG_750 750 = (250, CommissionType.fixed, 250) := by
  have h : ∀ cr ∈ [TestCommissionRate.mk TestCategory.XRAY_350 CommissionType.fixed 100],
      cr.category ≠ TestCategory.USG_750 := by
    intro cr hcr
    rw [List.mem_singleton] at hcr
    subst hcr
    decide
  refine ⟨h, ?_⟩
  rw [(commission_default_fallback _ TestCategory.USG_750 750 h).1]
  norm_num [defaultCommission, DEFAULT_COMMISSION_RATES, pyInt]
  decide

/-! String primitives.  Python string operations are modelled on the
character list of a Lean `String`, so that every definition reduces in the
kernel: `headMatch` is `startswith`, `hasSub` is the `in` substring test,
`pyUpper` is `str.upper()` (ASCII), `pyStrip` is `str.strip()`,
`pyTruthy` is Python truthiness of a string (nonempty). -/

def headMatch : List Char → List Char → Bool
  | [], _ => true
  | _ :: _, [] => false
  | a :: as, b :: bs => a == b && headMatch as bs

def hasSub (sub : List Char) : List Char → Bool
  | [] => sub.isEmpty
  | c :: rest => headMatch sub (c :: rest) || hasSub sub rest

def pyUpper (s : String) : String := ⟨s.data.map Char.toUpper⟩

def strStarts (s pre : String) : Bool := headMatch pre.data s.data

def strHas (s sub : String) : Bool := hasSub sub.data s.data

def pyStrip (s : String) : String :=
  ⟨((s.data.dropWhile Char.isWhitespace).reverse.dropWhile Char.isWhitespace).reverse⟩

def pyLen (s : String) : ℕ := s.data.length

def pyTruthy (s : String) : Bool := !s.data.isEmpty

/-- app.py get_test_category (lines 53-85): classify a test by name and
standard price.  The name is uppercased first, so matching is
case-insensitive. -/
def get_test_category (test_name : String) (test_price : ℤ) : TestCategory :=
  let test_name_upper := pyUpper test_name
  if strStarts test_name_upper "CT-SCAN" || strStarts test_name_upper "CT SCAN" then
    TestCategory.CT_SCAN
  else if strStarts test_name_upper "X-RAY" || strStarts test_name_upper "XRAY" then
    if test_price ≤ 350 then TestCategory.XRAY_350
    else if test_price ≤ 450 then TestCategory.XRAY_450
    else TestCategory.XRAY_650
  else if strHas test_name_upper "USG" || strHas test_name_upper "ULTRASOUND" ||
      strHas test_name_upper "SONOGRAPHY" then
    if test_price ≤ 750 then TestCategory.USG_750 else TestCategory.USG_1200
  else if strHas test_name_upper "ECG" || strHas test_name_upper "EKG" then
    TestCategory.ECG
  else
    TestCategory.PATH

/-- The spec's X-ray price bucketing (section 4.1 rule 2). -/
def xrayBucket (price : ℤ) : TestCategory :=
  if price ≤ 350 then TestCategory.XRAY_350
  else if price ≤ 450 then TestCategory.XRAY_450
  else TestCategory.XRAY_650

/-- The spec's ultrasound price bucketing (section 4.1 rule 3). -/
def usgBucket (price : ℤ) : TestCategory :=
  if price ≤ 750 then TestCategory.USG_750 else TestCategory.USG_1200

/-- Spec section 4.1 `categorize`: priority-ordered, case-insensitive,
first match wins, defaulting to PATH. -/
def categorize (test_name : String) (standard_price : ℤ) : TestCategory :=
  let n := pyUpper test_name
  if strStarts n "CT-SCAN" || strStarts n "CT SCAN" then TestCategory.CT_SCAN
  else if strStarts n "X-RAY" || strStarts n "XRAY" then xrayBucket standard_price
  else if strHas n "USG" || strHas n "ULTRASOUND" || strHas n "SONOGRAPHY" then
    usgBucket standard_price
  else if strHas n "ECG" || strHas n "EKG" then TestCategory.ECG
  else TestCategory.PATH

/-- C2: the implemented categorizer agrees with the spec's priority-ordered
rule list on every name and price, is total and deterministic (exactly one
category per input), and matches case-insensitively: names with the same
uppercasing always land in the same category. -/
theorem get_test_category_spec (test_name : String) (price : ℤ) :
    get_test_category test_name price = categorize test_name price ∧
    (∃! c : TestCategory, get_test_category test_name price = c) ∧
    (∀ other : String, pyUpper test_name = pyUpper other →
      get_test_category test_name price = get_test_category other price) := by
  refine ⟨rfl, ⟨get_test_category test_name price, rfl, fun c hc => hc.symm⟩, ?_⟩
  intro other hother
  unfold get_test_category
  rw [hother]

/-- Witness for C2: an X-ray at price 400 lands in XRAY_450 regardless of
letter case, as the spec-side rule list dictates. -/
theorem get_test_category_spec_witness :
    pyUpper "X-Ray Chest PA" = pyUpper "x-RAY chest pa" ∧
    get_test_category "X-Ray Chest PA" 400 = get_test_category "x-RAY chest pa" 400 ∧
    get_test_category "X-Ray Chest PA" 400 = TestCategory.XRAY_450 ∧
    get_test_category "usg whole abdomen" 750 = TestCategory.USG_750 ∧
    get_test_category "CBC" 300 = TestCategory.PATH := by
  refine ⟨by decide, (get_test_category_spec "X-Ray Chest PA" 400).2.2 _ (by decide),
    by decide, by decide, by decide⟩

/-! Validators, from app.py MedicalRecordForm (lines 92-114) and
ExpenseForm (lines 851-871). -/

/-- app.py MedicalRecordForm.validate_phone_number: requires a nonempty
value with at least 10 digit characters after stripping separators. -/
def validate_phone_number (phone : String) : Bool × String :=
  if ¬ pyTruthy phone then (false, "Phone number is required")
  else if (phone.data.filter Char.isDigit).length < 10 then
    (false, "Phone number must be at least 10 digits")
  else (true, "")

/-- app.py MedicalRecordForm.validate_patient_name -/
def validate_patient_name (name : String) : Bool × String :=
  if ¬ pyTruthy name ∨ pyLen (pyStrip name) < 2 then
    (false, "Patient name must be at least 2 characters")
  else (true, "")

/-- app.py ExpenseForm.validate_amount -/
def validate_amount (amount : ℤ) : Bool × String :=
  if amount ≤ 0 then (false, "Amount must be greater than 0")
  else if amount > 1000000 then (false, "Amount exceeds maximum limit")
  else (true, "")

/-- data_models.ExpenseType -/
inductive ExpenseType where
  | CHAI_NASHTA
  | PETROL_DIESEL
  | RENT
  | ELECTRICITY
  | INTERNET
  | STAFF_SALARY
  | DOCTOR_CUT
  | DOCTOR_FEES
  | MACHINE_REPAIR
  | MACHINE_INSTALL
  | MACHINE_COST
  | PAPER_STATIONARY
  | THYROCARE
  | STAFF_EXPENSE
  | SALARY
  | OTHER
  deriving DecidableEq, Repr

/-- The trailing length check of app.py ExpenseForm.validate_description:
a provided description may not exceed 500 characters. -/
def descriptionLengthCap (description : String) : Bool × String :=
  if pyTruthy description ∧ pyLen (pyStrip description) > 500 then
    (false, "Description cannot exceed 500 characters")
  else (true, "")

/-- app.py ExpenseForm.validate_description: required (at least 3 characters
after strip) for the Other expense type; otherwise optional, but checked
for minimum length when provided; always capped at 500 characters. -/
def validate_description (description : String) (expense_type : ExpenseType) : Bool × String :=
  if expense_type = ExpenseType.OTHER then
    if ¬ pyTruthy description ∨ pyLen (pyStrip description) < 3 then
      (false, "Description is required for Other Expense (at least 3 characters)")
    else descriptionLengthCap description
  else if pyTruthy description ∧ pyLen (pyStrip description) > 0 then
    if pyLen (pyStrip description) < 3 then
      (false, "Description must be at least 3 characters if provided")
    else descriptionLengthCap description
  else descriptionLengthCap description

theorem data_nil_of_not_pyTruthy {s : String} (h : ¬ pyTruthy s = true) : s.data = [] := by
  cases hd : s.data with
  | nil => rfl
  | cons a as => exact absurd (by simp [pyTruthy, hd]) h

theorem pyLen_pyStrip_of_nil {s : String} (h : s.data = []) : pyLen (pyStrip s) = 0 := by
  simp [pyLen, pyStrip, h]

theorem pyTruthy_of_pyStrip_pos {s : String} (h : 0 < pyLen (pyStrip s)) :
    pyTruthy s = true := by
  by_contra hs
  rw [pyLen_pyStrip_of_nil (data_nil_of_not_pyTruthy hs)] at h
  exact absurd h (by omega)

/-- C10: boundary characterization of the field validators: a phone is valid
iff it has at least 10 digit characters; a patient name is valid iff its
stripped length is at least 2; an expense amount is valid iff it lies in
(0, 1000000]; a description for the Other expense type is valid iff its
stripped length lies in [3, 500]; for any other expense type a description
is valid iff it is blank after stripping or its stripped length lies in
[3, 500]. -/
theorem validators_characterization (phone name : String) (amount : ℤ)
    (description : String) (expense_type : ExpenseType) :
    ((validate_phone_number phone).1 = true ↔
      10 ≤ (phone.data.filter Char.isDigit).length) ∧
    ((validate_patient_name name).1 = true ↔ 2 ≤ pyLen (pyStrip name)) ∧
    ((validate_amount amount).1 = true ↔ 0 < amount ∧ amount ≤ 1000000) ∧
    ((validate_description description ExpenseType.OTHER).1 = true ↔
      3 ≤ pyLen (pyStrip description) ∧ pyLen (pyStrip description) ≤ 500) ∧
    (expense_type ≠ ExpenseType.OTHER →
      ((validate_description description expense_type).1 = true ↔
        pyLen (pyStrip description) = 0 ∨
          (3 ≤ pyLen (pyStrip description) ∧ pyLen (pyStrip description) ≤ 500))) := by
  refine ⟨?_, ?_, ?_, ?_, ?_⟩
  · unfold validate_phone_number
    split_ifs with h1 h2
    · exact iff_of_false (by simp) (by omega)
    · exact iff_of_true rfl (by omega)
    · refine iff_of_false (by simp) ?_
      rw [data_nil_of_not_pyTruthy h1]
      simp
  · unfold validate_patient_name
    split_ifs with h1
    · refine iff_of_false (by simp) ?_
      rcases h1 with h | h
      · rw [pyLen_pyStrip_of_nil (data_nil_of_not_pyTruthy h)]
        omega
      · omega
    · push_neg at h1
      exact iff_of_true rfl (by omega)
  · unfold validate_amount
    split_ifs with h1 h2
    · exact iff_of_false (by simp) (by omega)
    · exact iff_of_false (by simp) (by omega)
    · exact iff_of_true rfl ⟨by omega, by omega⟩
  · unfold validate_description
    rw [if_pos rfl]
    split_ifs with h1
    · refine iff_of_false (by simp) ?_
      rcases h1 with h | h
      · rw [pyLen_pyStrip_of_nil (data_nil_of_not_pyTruthy h)]
        omega
      · omega
    · push_neg at h1
      unfold descriptionLengthCap
      split_ifs with h2
      · exact iff_of_false (by simp) (by obtain ⟨-, h5⟩ := h2; omega)
      · refine iff_of_true rfl ⟨by omega, ?_⟩
        by_contra hgt
        exact h2 ⟨h1.1, by omega⟩
  · intro hne
    unfold validate_description
    rw [if_neg hne]
    split_ifs with h1 h2
    · exact iff_of_false (by simp) (by obtain ⟨-, hpos⟩ := h1; omega)
    · unfold descriptionLengthCap
      split_ifs with h3
      · exact iff_of_false (by simp) (by obtain ⟨-, h5⟩ := h3; omega)
      · refine iff_of_true rfl (Or.inr ⟨by omega, ?_⟩)
        by_contra hgt
        exact h3 ⟨(h1).1, by omega⟩
    · have hlen0 : pyLen (pyStrip description) = 0 := by
        by_cases ht : pyTruthy description = true
        · have hnp : ¬ 0 < pyLen (pyStrip description) := fun hpos => h1 ⟨ht, hpos⟩
          omega
        · exact pyLen_pyStrip_of_nil (data_nil_of_not_pyTruthy ht)
      unfold descriptionLengthCap
      rw [if_neg (by rintro ⟨-, hgt⟩; omega)]
      exact iff_of_true rfl (Or.inl hlen0)

/-- Witness for C10: the spec's boundary examples, and a blank description
accepted for a non-Other expense type via the characterization theorem. -/
theorem validators_characterization_witness :
    (validate_phone_number "1234567890").1 = true ∧
    (validate_phone_number "123456789").1 = false ∧
    (validate_patient_name "Jo").1 = true ∧
    (validate_patient_name "J").1 = false ∧
    (validate_amount 1000000).1 = true ∧
    (validate_amount 0).1 = false ∧
    (validate_amount 1000001).1 = false ∧
    (validate_description "" ExpenseType.RENT).1 = true ∧
    (validate_description "" ExpenseType.OTHER).1 = false := by
  refine ⟨by decide, by decide, by decide, by decide, by decide, by decide, by decide, ?_,
    by decide⟩
  exact ((validators_characterization "1234567890" "Jo" 1000000 ""
    ExpenseType.RENT).2.2.2.2 (by decide)).mpr (Or.inl (by decide))

/-! Authorization state machine, from user_authentication.py and the
dispatch in app.py PrimeLabsUI.render (lines 2941-3034).

External effects are abstracted into values: `token_valid` is the outcome of
`verify_token_validity` (the credential provider's verdict on the session
token), `is_owner` the outcome of `utils.is_project_owner` (email matches
the configured owner allow-list), and the stored users-collection document
for the email is an `Option UserProfile` (absent when the query returns no
document).  A stored document may itself lack the "status" key, hence
`status : Option String`. -/

/-- data_models.UserRole -/
inductive UserRole where
  | ADMIN
  | MANAGER
  | SUPERVISOR
  | DOCTOR
  | EMPLOYEE
  deriving DecidableEq, Repr

/-- data_models.AuthorizationStatus -/
inductive AuthorizationStatus where
  | PENDING_APPROVAL
  | APPROVED
  | REJECTED
  | UNAUTHENTICATED
  | UNAUTHORIZED
  | OWNER
  | NON_OWNER
  deriving DecidableEq, Repr

/-- A stored user document, as read back from the users collection. -/
structure UserProfile where
  status : Option String
  deriving DecidableEq, Repr

/-- user_authentication.UserAuthentication.get_user_status (lines 176-196):
"unauthenticated" on an invalid token, "approved" for the owner, otherwise
the stored document's status string, defaulting to "pending_approval" when
the document or its status field is absent. -/
def get_user_status (token_valid is_owner : Bool) (profile : Option UserProfile) : String :=
  if ¬ token_valid then "unauthenticated"
  else if is_owner then "approved"
  else
    match profile with
    | some p => p.status.getD "pending_approval"
    | none => "pending_approval"

/-- user_authentication.UserAuthentication.check_user_approval_status
(lines 139-161): only the stored status "approved" grants access; the owner
always passes; an invalid token, an absent document, or any other status
fails. -/
def check_user_approval_status (token_valid is_owner : Bool)
    (profile : Option UserProfile) : Bool :=
  if ¬ token_valid then false
  else if is_owner then true
  else
    match profile with
    | some p => p.status.getD "" = "approved"
    | none => false

/-- user_authentication.UserAuthentication.require_authorization
(lines 115-125). -/
def require_authorization (token_valid is_owner : Bool) (profile : Option UserProfile)
    (role : Option UserRole) (session_role : UserRole) : AuthorizationStatus :=
  if ¬ token_valid then AuthorizationStatus.UNAUTHENTICATED
  else if ¬ check_user_approval_status token_valid is_owner profile then
    AuthorizationStatus.PENDING_APPROVAL
  else
    match role with
    | some r =>
      if session_role ≠ r then AuthorizationStatus.UNAUTHORIZED
      else AuthorizationStatus.APPROVED
    | none => AuthorizationStatus.APPROVED

/-- The composite approval-status resolution of app.py PrimeLabsUI.render
(lines 2941-3034): an authenticated user whose `get_user_status` is
"rejected" is routed to the rejected screen, "pending_approval" to the
pending screen; every other user falls through to `require_authorization`
(with no role requirement), which decides APPROVED versus
PENDING_APPROVAL. -/
def resolve_authorization (token_valid is_owner : Bool)
    (profile : Option UserProfile) : AuthorizationStatus :=
  if ¬ token_valid then AuthorizationStatus.UNAUTHENTICATED
  else if get_user_status token_valid is_owner profile = "rejected" then
    AuthorizationStatus.REJECTED
  else if get_user_status token_valid is_owner profile = "pending_approval" then
    AuthorizationStatus.PENDING_APPROVAL
  else require_authorization token_valid is_owner profile none UserRole.EMPLOYEE

/-- C4: with a valid token and an email on the owner allow-list, the
approval-status resolution returns APPROVED no matter what the stored
profile holds — absent document, "pending_approval", "approved",
"rejected", or anything else. -/
theorem owner_always_approved (profile : Option UserProfile) :
    resolve_authorization true true profile = AuthorizationStatus.APPROVED ∧
    get_user_status true true profile = "approved" ∧
    check_user_approval_status true true profile = true ∧
    require_authorization true true profile none UserRole.EMPLOYEE =
      AuthorizationStatus.APPROVED := by
  refine ⟨?_, rfl, rfl, rfl⟩
  simp [resolve_authorization, get_user_status, require_authorization,
    check_user_approval_status]

/-- C5: for a non-owner with a valid token, the resolution maps an absent
document to PENDING_APPROVAL, stored status "approved" to APPROVED,
"rejected" to REJECTED, a missing status field to PENDING_APPROVAL, and
every other status string to PENDING_APPROVAL. -/
theorem non_owner_status_resolution :
    resolve_authorization true false none = AuthorizationStatus.PENDING_APPROVAL ∧
    resolve_authorization true false (some ⟨some "approved"⟩) =
      AuthorizationStatus.APPROVED ∧
    resolve_authorization true false (some ⟨some "rejected"⟩) =
      AuthorizationStatus.REJECTED ∧
    resolve_authorization true false (some ⟨none⟩) =
      AuthorizationStatus.PENDING_APPROVAL ∧
    (∀ s : String, s ≠ "approved" → s ≠ "rejected" →
      resolve_authorization true false (some ⟨some s⟩) =
        AuthorizationStatus.PENDING_APPROVAL) := by
  refine ⟨by decide, by decide, by decide, by decide, ?_⟩
  intro s hs1 hs2
  simp [resolve_authorization, get_user_status, check_user_approval_status,
    require_authorization, hs1, hs2]

/-- Witness for C5: the stored status "active" (naming drift from an older
revision) is neither "approved" nor "rejected" and resolves to
PENDING_APPROVAL. -/
theorem non_owner_status_resolution_witness :
    ("active" : String) ≠ "approved" ∧ ("active" : String) ≠ "rejected" ∧
    resolve_authorization true false (some ⟨some "active"⟩) =
      AuthorizationStatus.PENDING_APPROVAL :=
  ⟨by decide, by decide,
    non_owner_status_resolution.2.2.2.2 "active" (by decide) (by decide)⟩

/-! Registration, from user_authentication.UserAuthentication.register
(lines 32-59).  The two external effects that can fail are abstracted as
Booleans: `create_ok` is whether the credential provider's
create_user_with_email_and_password call succeeds, `write_ok` whether the
subsequent users-collection document write succeeds.  The outcome records
the returned (success, error message) pair and the post-state of the two
stores. -/

/-- The user document `register` writes (email, name, role, status,
created_at timestamp elided). -/
structure StoredProfile where
  email : String
  name : String
  role : UserRole
  status : String
  deriving DecidableEq, Repr

structure RegistrationOutcome where
  success : Bool
  error_message_empty : Bool
  credential_exists : Bool
  stored_profile : Option StoredProfile
  deriving DecidableEq, Repr

/-- user_authentication.UserAuthentication.register: create the credential,
then write the profile document with status "pending_approval" and the
default EMPLOYEE role; on any exception after the credential was created,
delete the just-created credential and return failure with an error
message. -/
def register (create_ok write_ok : Bool) (email name : String) : RegistrationOutcome :=
  if ¬ create_ok then
    { success := false, error_message_empty := false,
      credential_exists := false, stored_profile := none }
  else if ¬ write_ok then
    { success := false, error_message_empty := false,
      credential_exists := false, stored_profile := none }
  else
    { success := true, error_message_empty := true,
      credential_exists := true,
      stored_profile := some
        { email := email, name := name, role := UserRole.EMPLOYEE,
          status := "pending_approval" } }

/-- C8: if the credential creation succeeds but the profile write fails,
registration deletes the just-created credential (no orphaned login
remains), stores no profile, and returns failure with an error message; if
everything succeeds it returns success and the stored profile has status
"pending_approval" and the default EMPLOYEE role. -/
theorem register_compensation (email name : String) :
    (register true false email name).success = false ∧
    (register true false email name).error_message_empty = false ∧
    (register true false email name).credential_exists = false ∧
    (register true false email name).stored_profile = none ∧
    (register true true email name).success = true ∧
    (register true true email name).stored_profile =
      some { email := email, name := name, role := UserRole.EMPLOYEE,
             status := "pending_approval" } :=
  ⟨rfl, rfl, rfl, rfl, rfl, rfl⟩

/-! Construction of TestCommissionDetail, for the referral submission path.

data_models.TestCommissionDetail (lines 254-261) declares exactly six
fields, all without defaults, hence all required by pydantic validation;
extra keyword arguments are ignored under the default model config.
app.py MedicalRecordForm.render (lines 767-777) constructs the model with
nine keyword arguments.  Both keyword lists are embedded below by name. -/

/-- The declared (and required) fields of data_models.TestCommissionDetail. -/
def testCommissionDetailFields : List String :=
  ["test_name", "test_category", "test_price",
   "commission_type", "commission_rate", "commission_amount"]

/-- The keyword arguments passed to TestCommissionDetail(...) in
app.py MedicalRecordForm.render, lines 767-777. -/
def renderSubmissionKwargs : List String :=
  ["test_name", "test_category", "original_price", "paid_price", "discount",
   "commission_type", "commission_rate", "original_commission", "commission_amount"]

/-- Pydantic validation of a constructor call: it succeeds iff every
required field receives a value (unknown keywords are ignored). -/
def pydanticConstructionOk (required provided : List String) : Bool :=
  required.all fun f => provided.contains f

/-- C6 (code bug): the referral submission's TestCommissionDetail
construction fails pydantic validation — the required field test_price is
not among the passed keywords — and the model declares none of the
original_price, paid_price, discount, original_commission fields the
record is supposed to carry, so the detail record can neither be built nor
carry the claimed breakdown. -/
theorem referral_detail_construction_fails :
    pydanticConstructionOk testCommissionDetailFields renderSubmissionKwargs = false ∧
    renderSubmissionKwargs.contains "test_price" = false ∧
    testCommissionDetailFields.contains "original_price" = false ∧
    testCommissionDetailFields.contains "paid_price" = false ∧
    testCommissionDetailFields.contains "discount" = false ∧
    testCommissionDetailFields.contains "original_commission" = false := by
  decide

/-! Write-retry behaviour.  app.py ExpenseForm.render (lines 1246-1260)
wraps its create_doc call in a 3-attempt loop with time.sleep(1) after each
failed non-final attempt; app.py MedicalRecordForm.render (lines 819-843)
calls create_doc exactly once inside try/except, with no loop, and
firestore_crud.FirestoreCRUD.create_doc re-raises without retrying.
Persistence is abstracted as `outcome : ℕ → Bool` giving the success of
each numbered attempt. -/

/-- Observable result of a save: whether it ultimately succeeded, how many
create_doc attempts were made, and how many 1-second sleeps elapsed. -/
structure SaveOutcome where
  success : Bool
  attempts : ℕ
  sleeps : ℕ
  deriving DecidableEq, Repr

/-- The expense retry loop: `fuel` is the number of attempts remaining,
`attempt` the index of the next attempt; on a failure of the last attempt
the error propagates (no sleep), otherwise sleep 1 second and retry. -/
def retryWrite (outcome : ℕ → Bool) : ℕ → ℕ → ℕ → SaveOutcome
  | 0, attempt, sleeps => ⟨false, attempt, sleeps⟩
  | fuel + 1, attempt, sleeps =>
    if outcome attempt then ⟨true, attempt + 1, sleeps⟩
    else if fuel = 0 then ⟨false, attempt + 1, sleeps⟩
    else retryWrite outcome fuel (attempt + 1) (sleeps + 1)

/-- app.py ExpenseForm.render, lines 1246-1260: max_retries = 3. -/
def expense_save (outcome : ℕ → Bool) : SaveOutcome := retryWrite outcome 3 0 0

/-- app.py MedicalRecordForm.render, lines 819-843: a single create_doc
call; any exception is surfaced immediately. -/
def medical_record_save (outcome : ℕ → Bool) : SaveOutcome :=
  if outcome 0 then ⟨true, 1, 0⟩ else ⟨false, 1, 0⟩

/-- A persistence behaviour whose first attempt fails and whose later
attempts succeed. -/
def failThenSucceed : ℕ → Bool := fun n => decide (0 < n)

/-- Counterexample to C7: when the first write attempt fails and a retry
would succeed, the expense path retries and succeeds after 2 attempts and
one 1-second wait, but the medical-record path makes exactly one attempt
and surfaces the error — so medical-record writes do not follow the
claimed 3-attempt retry policy. -/
theorem medical_record_save_no_retry :
    (medical_record_save failThenSucceed).success = false ∧
    (medical_record_save failThenSucceed).attempts = 1 ∧
    expense_save failThenSucceed = ⟨true, 2, 1⟩ ∧
    medical_record_save failThenSucceed ≠ expense_save failThenSucceed ∧
    ¬ (∀ outcome : ℕ → Bool, medical_record_save outcome = expense_save outcome) := by
  refine ⟨by decide, by decide, by decide, by decide, fun h => ?_⟩
  exact absurd (h failThenSucceed) (by decide)

/-- C7 (amended): expense writes are retried up to 3 total attempts with a
fixed 1-second wait after each failed non-final attempt, the error is
surfaced only after the third failed attempt, and no further attempt
follows a success; medical-record writes are attempted exactly once and
the error is surfaced on the first failure. -/
theorem write_retry_behaviour (outcome : ℕ → Bool) :
    expense_save outcome =
      (if outcome 0 then (⟨true, 1, 0⟩ : SaveOutcome)
       else if outcome 1 then ⟨true, 2, 1⟩
       else if outcome 2 then ⟨true, 3, 2⟩
       else ⟨false, 3, 2⟩) ∧
    medical_record_save outcome =
      (if outcome 0 then (⟨true, 1, 0⟩ : SaveOutcome) else ⟨false, 1, 0⟩) := by
  constructor
  · cases h0 : outcome 0 <;> cases h1 : outcome 1 <;> cases h2 : outcome 2 <;>
      simp [expense_save, retryWrite, h0, h1, h2]
  · rfl

/-! The referral report, from app.py compute_referral_report
(lines 2113-2170).  A stored medical record is reduced to the fields the
report reads: the optional referral_info block (doctor id/name/location,
total commission and the per-test breakdown, here kept as the list of test
names), the patient name and the payment amount.  The Python dict keyed by
doctor_name is modelled as an association list in insertion order, updated
in place — exactly the observable behaviour of the dict. -/

structure ReferralInfo where
  doctor_id : String
  doctor_name : String
  doctor_location : String
  total_commission : ℤ
  test_commissions : List String
  deriving DecidableEq, Repr

structure ReportRecord where
  referral_info : Option ReferralInfo
  patient_name : String
  payment_amount : ℤ
  deriving DecidableEq, Repr

/-- One entry of a doctor's `patients` list in the report. -/
structure PatientEntry where
  name : String
  payment : ℤ
  commission : ℤ
  tests : List String
  deriving DecidableEq, Repr

structure DoctorAggregate where
  doctor_id : String
  location : String
  total_commission : ℤ
  total_revenue : ℤ
  patient_count : ℕ
  patients : List PatientEntry
  deriving DecidableEq, Repr

/-- The zero-valued aggregate installed when a doctor first appears. -/
def initAggregate (ri : ReferralInfo) : DoctorAggregate :=
  { doctor_id := ri.doctor_id, location := ri.doctor_location,
    total_commission := 0, total_revenue := 0, patient_count := 0, patients := [] }

/-- The `+=` block of compute_referral_report: add one record's commission,
payment and patient to a doctor's aggregate. -/
def addContribution (a : DoctorAggregate) (commission payment : ℤ)
    (p : PatientEntry) : DoctorAggregate :=
  { a with
    total_commission := a.total_commission + commission
    total_revenue := a.total_revenue + payment
    patient_count := a.patient_count + 1
    patients := a.patients ++ [p] }

/-- Install-if-absent then update, keyed by doctor name, preserving
insertion order — the behaviour of the Python dict in
compute_referral_report. -/
def bumpDoctor : List (String × DoctorAggregate) → String → DoctorAggregate →
    ℤ → ℤ → PatientEntry → List (String × DoctorAggregate)
  | [], name, init, c, rev, p => [(name, addContribution init c rev p)]
  | (n, a) :: rest, name, init, c, rev, p =>
    if n = name then (n, addContribution a c rev p) :: rest
    else (n, a) :: bumpDoctor rest name init c rev p

def patientEntry (r : ReportRecord) (ri : ReferralInfo) : PatientEntry :=
  { name := r.patient_name, payment := r.payment_amount,
    commission := ri.total_commission, tests := ri.test_commissions }

/-- One iteration of the loop in compute_referral_report: records without
referral_info, or with total_commission ≤ 0, are skipped. -/
def reportStep (m : List (String × DoctorAggregate)) (r : ReportRecord) :
    List (String × DoctorAggregate) :=
  match r.referral_info with
  | none => m
  | some ri =>
    if ri.total_commission ≤ 0 then m
    else
      bumpDoctor m ri.doctor_name (initAggregate ri) ri.total_commission
        r.payment_amount (patientEntry r ri)

/-- app.py compute_referral_report, lines 2113-2170. -/
def compute_referral_report (records : List ReportRecord) :
    List (String × DoctorAggregate) :=
  records.foldl reportStep []

/-- Python dict lookup by doctor name on the association-list model. -/
def lookupDoctor : List (String × DoctorAggregate) → String → Option DoctorAggregate
  | [], _ => none
  | (n, a) :: rest, d => if n = d then some a else lookupDoctor rest d

def reportCommissionTotal (m : List (String × DoctorAggregate)) : ℤ :=
  (m.map fun e => e.2.total_commission).sum

def reportRevenueTotal (m : List (String × DoctorAggregate)) : ℤ :=
  (m.map fun e => e.2.total_revenue).sum

def reportPatientTotal (m : List (String × DoctorAggregate)) : ℕ :=
  (m.map fun e => e.2.patient_count).sum

/-- A record's referral commission as read by the report: the
referral_info total_commission, 0 when the block is absent. -/
def recordCommission (r : ReportRecord) : ℤ :=
  match r.referral_info with
  | some ri => ri.total_commission
  | none => 0

/-- A record's contribution to the report (0 when the record is skipped). -/
def includedCommission (r : ReportRecord) : ℤ :=
  match r.referral_info with
  | some ri => if ri.total_commission ≤ 0 then 0 else ri.total_commission
  | none => 0

theorem bumpDoctor_sums (name : String) (init : DoctorAggregate) (c rev : ℤ)
    (p : PatientEntry) (h0 : init.total_commission = 0) (h1 : init.total_revenue = 0)
    (h2 : init.patient_count = 0) :
    ∀ m : List (String × DoctorAggregate),
      reportCommissionTotal (bumpDoctor m name init c rev p) =
        reportCommissionTotal m + c ∧
      reportRevenueTotal (bumpDoctor m name init c rev p) =
        reportRevenueTotal m + rev ∧
      reportPatientTotal (bumpDoctor m name init c rev p) =
        reportPatientTotal m + 1 := by
  intro m
  induction m with
  | nil =>
    simp [bumpDoctor, reportCommissionTotal, reportRevenueTotal, reportPatientTotal,
      addContribution, h0, h1, h2]
  | cons e rest ih =>
    obtain ⟨n, a⟩ := e
    by_cases hn : n = name
    · simp only [bumpDoctor, if_pos hn, reportCommissionTotal, reportRevenueTotal,
        reportPatientTotal, addContribution, List.map_cons, List.sum_cons]
      refine ⟨by ring, by ring, by omega⟩
    · simp only [bumpDoctor, if_neg hn, reportCommissionTotal, reportRevenueTotal,
        reportPatientTotal, List.map_cons, List.sum_cons] at ih ⊢
      refine ⟨by rw [ih.1]; ring, by rw [ih.2.1]; ring, by rw [ih.2.2]; omega⟩

theorem bumpDoctor_lookup_ne (name : String) (init : DoctorAggregate) (c rev : ℤ)
    (p : PatientEntry) (d : String) (hd : d ≠ name) :
    ∀ m, lookupDoctor (bumpDoctor m name init c rev p) d = lookupDoctor m d := by
  intro m
  have hnd : name ≠ d := hd.symm
  induction m with
  | nil =>
    simp only [bumpDoctor, lookupDoctor]
    rw [if_neg hnd]
  | cons e rest ih =>
    obtain ⟨n, a⟩ := e
    simp only [bumpDoctor]
    by_cases hn : n = name
    · rw [if_pos hn]
      subst hn
      simp only [lookupDoctor]
      rw [if_neg hnd, if_neg hnd]
    · rw [if_neg hn]
      simp only [lookupDoctor]
      by_cases hne : n = d
      · rw [if_pos hne, if_pos hne]
      · rw [if_neg hne, if_neg hne, ih]

theorem bumpDoctor_lookup_eq (name : String) (init : DoctorAggregate) (c rev : ℤ)
    (p : PatientEntry) :
    ∀ m, lookupDoctor (bumpDoctor m name init c rev p) name =
      some (addContribution ((lookupDoctor m name).getD init) c rev p) := by
  intro m
  induction m with
  | nil => simp [bumpDoctor, lookupDoctor]
  | cons e rest ih =>
    obtain ⟨n, a⟩ := e
    by_cases hn : n = name
    · simp [bumpDoctor, if_pos hn, lookupDoctor, hn]
    · simp [bumpDoctor, if_neg hn, lookupDoctor, hn, ih]

theorem foldl_reportCommission (records : List ReportRecord) :
    ∀ m, reportCommissionTotal (List.foldl reportStep m records) =
      reportCommissionTotal m + (records.map includedCommission).sum := by
  induction records with
  | nil => intro m; simp
  | cons r rs ih =>
    intro m
    rw [List.foldl_cons, ih, List.map_cons, List.sum_cons]
    have hstep : reportCommissionTotal (reportStep m r) =
        reportCommissionTotal m + includedCommission r := by
      cases hri : r.referral_info with
      | none => simp [reportStep, includedCommission, hri]
      | some ri =>
        by_cases hle : ri.total_commission ≤ 0
        · simp [reportStep, includedCommission, hri, hle]
        · simp only [reportStep, includedCommission, hri, if_neg hle]
          exact (bumpDoctor_sums ri.doctor_name (initAggregate ri) ri.total_commission
            r.payment_amount (patientEntry r ri) rfl rfl rfl m).1
    rw [hstep]
    ring

theorem includedCommission_eq_of_nonneg {r : ReportRecord}
    (hr : 0 ≤ recordCommission r) : includedCommission r = recordCommission r := by
  cases hri : r.referral_info with
  | none => simp [includedCommission, recordCommission, hri]
  | some ri =>
    simp only [recordCommission, hri] at hr
    by_cases hle : ri.total_commission ≤ 0
    · have h0 : ri.total_commission = 0 := le_antisymm hle hr
      simp [includedCommission, recordCommission, hri, hle, h0]
    · simp [includedCommission, recordCommission, hri, hle]

theorem includedCommission_sum_eq (records : List ReportRecord)
    (h : ∀ r ∈ records, 0 ≤ recordCommission r) :
    (records.map includedCommission).sum = (records.map recordCommission).sum := by
  induction records with
  | nil => rfl
  | cons r rs ih =>
    rw [List.map_cons, List.map_cons, List.sum_cons, List.sum_cons,
      ih fun x hx => h x (List.mem_cons_of_mem r hx),
      includedCommission_eq_of_nonneg (h r (List.mem_cons_self r rs))]

/-- C9: whenever every stored referral commission is nonnegative (as every
record produced by the application is — each total is a sum of
max(0, ·) values), the sum of referral_info.total_commission over the
records equals the sum of the per-doctor total_commission values of the
report; a record without referral_info, or with total_commission ≤ 0,
leaves the report untouched; and an included record adds exactly its
commission, its payment amount, and one patient count to exactly the
aggregate of its doctor, leaving every other doctor's entry unchanged. -/
theorem referral_report_consistency (records : List ReportRecord)
    (h : ∀ r ∈ records, 0 ≤ recordCommission r) :
    reportCommissionTotal (compute_referral_report records) =
      (records.map recordCommission).sum ∧
    (∀ m r, r.referral_info = none → reportStep m r = m) ∧
    (∀ m r ri, r.referral_info = some ri → ri.total_commission ≤ 0 →
      reportStep m r = m) ∧
    (∀ m r ri, r.referral_info = some ri → 0 < ri.total_commission →
      reportCommissionTotal (reportStep m r) =
        reportCommissionTotal m + ri.total_commission ∧
      reportRevenueTotal (reportStep m r) =
        reportRevenueTotal m + r.payment_amount ∧
      reportPatientTotal (reportStep m r) = reportPatientTotal m + 1 ∧
      lookupDoctor (reportStep m r) ri.doctor_name =
        some (addContribution ((lookupDoctor m ri.doctor_name).getD (initAggregate ri))
          ri.total_commission r.payment_amount (patientEntry r ri)) ∧
      (∀ d, d ≠ ri.doctor_name →
        lookupDoctor (reportStep m r) d = lookupDoctor m d)) := by
  refine ⟨?_, ?_, ?_, ?_⟩
  · rw [compute_referral_report, foldl_reportCommission,
      includedCommission_sum_eq records h]
    simp [reportCommissionTotal]
  · intro m r hri
    unfold reportStep
    rw [hri]
  · intro m r ri hri hle
    unfold reportStep
    rw [hri]
    exact if_pos hle
  · intro m r ri hri hpos
    have hne : ¬ ri.total_commission ≤ 0 := by omega
    have hstep : reportStep m r =
        bumpDoctor m ri.doctor_name (initAggregate ri) ri.total_commission
          r.payment_amount (patientEntry r ri) := by
      simp only [reportStep, hri]
      rw [if_neg hne]
    have hsums := bumpDoctor_sums ri.doctor_name (initAggregate ri)
      ri.total_commission r.payment_amount (patientEntry r ri) rfl rfl rfl m
    refine ⟨by rw [hstep]; exact hsums.1, by rw [hstep]; exact hsums.2.1,
      by rw [hstep]; exact hsums.2.2, by rw [hstep]; exact bumpDoctor_lookup_eq _ _ _ _ _ m,
      fun d hd => by rw [hstep]; exact bumpDoctor_lookup_ne _ _ _ _ _ d hd m⟩

/-- The spec's end-to-end scenario records: Asha Verma's 750-rupee
ultrasound referred by a doctor owed a fixed 250 commission, a walk-in
record without referral, and a zero-commission referral. -/
def demoRecords : List ReportRecord :=
  [{ referral_info := some
       { doctor_id := "d1", doctor_name := "Dr. Mehta", doctor_location := "Indore",
         total_commission := 250, test_commissions := ["USG WHOLE ABDOMEN"] },
     patient_name := "Asha Verma", payment_amount := 750 },
   { referral_info := none, patient_name := "Walk In", payment_amount := 400 },
   { referral_info := some
       { doctor_id := "d2", doctor_name := "Dr. Rao", doctor_location := "Bhopal",
         total_commission := 0, test_commissions := [] },
     patient_name := "Free Case", payment_amount := 100 }]

/-- Witness for C9: on the three demo records the report total and the
record total both equal 250, and only Dr. Mehta appears in the report. -/
theorem referral_report_consistency_witness :
    (∀ r ∈ demoRecords, 0 ≤ recordCommission r) ∧
    reportCommissionTotal (compute_referral_report demoRecords) =
      (demoRecords.map recordCommission).sum ∧
    reportCommissionTotal (compute_referral_report demoRecords) = 250 ∧
    (compute_referral_report demoRecords).length = 1 := by
  have h : ∀ r ∈ demoRecords, 0 ≤ recordCommission r := by decide
  exact ⟨h, (referral_report_consistency demoRecords h).1, by decide, by decide⟩

end PrimeLabs
